import Mathlib

/-!
Verification development for the dagonstar container backends
(`dagon/apptainer_task.py`, `dagon/kubernetes_task.py`, `dagon/checkpoint.py`).

The Python sources are shallowly embedded: each relevant method becomes a
Lean function over explicit state, with the external backend (subprocess,
Kubernetes API, SSH channel) supplied as an oracle structure of outcomes.
Machine integers do not occur; exit codes are `Int`, strings are `String`.
Fallible Python code (raising exceptions) is embedded with `Except String`.
-/

/-! ## Shared result record

`{"output": ..., "code": ...}` dictionaries returned by the tasks. -/

structure ExecResult where
  output : String
  code : Int
deriving Repr, DecidableEq

/-! ## Python string helpers

`str.strip()` with no argument removes leading and trailing whitespace
(space, tab, newline, carriage return, vertical tab, form feed). -/

def pyIsWhitespace (c : Char) : Bool :=
  c = ' ' || c = '\t' || c = '\n' || c = '\r' || c = '\x0b' || c = '\x0c'

def pyStrip (s : String) : String :=
  String.mk (((s.data.dropWhile pyIsWhitespace).reverse.dropWhile pyIsWhitespace).reverse)

/-- One character of `result.replace("\n", "\\n").replace("\t", "\\t")`
(`on_execute` in both backends).  The composite of the two Python
replacements acts character-wise because the first replacement introduces
no tab characters. -/
def escapeNlTabChar (c : Char) : List Char :=
  if c = '\n' then ['\\', 'n'] else if c = '\t' then ['\\', 't'] else [c]

def escapeNlTabList : List Char → List Char
  | [] => []
  | c :: l => escapeNlTabChar c ++ escapeNlTabList l

def escapeNlTab (s : String) : String :=
  String.mk (escapeNlTabList s.data)

/-- `safe_result` as computed by `on_execute`: escape after stripping. -/
def safeResultOf (raw : String) : String :=
  escapeNlTab (pyStrip raw)

/-! ## The JSON layer

`json.dumps({"result": safe_result})` produces
`{"result": "<escaped safe_result>"}` with the default separators.
The string escaping below models Python's `json.dumps` exactly on strings
whose characters are ASCII and either printable or among newline, tab and
carriage return; the theorems about arbitrary inputs carry that restriction
as the `jsonSimpleString` hypothesis.  (Python additionally `\u`-escapes
other control characters and all non-ASCII characters.) -/

def jsonEscapeChar (c : Char) : List Char :=
  if c = '\\' then ['\\', '\\']
  else if c = '"' then ['\\', '"']
  else if c = '\n' then ['\\', 'n']
  else if c = '\t' then ['\\', 't']
  else if c = '\r' then ['\\', 'r']
  else [c]

def jsonEscapeList : List Char → List Char
  | [] => []
  | c :: l => jsonEscapeChar c ++ jsonEscapeList l

/-- Characters on which `jsonEscapeChar` agrees with Python `json.dumps`. -/
def jsonSimpleChar (c : Char) : Bool :=
  c.toNat < 128 && (32 ≤ c.toNat || c = '\n' || c = '\t' || c = '\r')

def jsonSimpleString (s : String) : Prop :=
  ∀ c ∈ s.data, jsonSimpleChar c = true

instance (s : String) : Decidable (jsonSimpleString s) :=
  List.decidableBAll _ _

/-- `json.dumps({"result": s})`. -/
def jsonDumpsResult (s : String) : String :=
  "\x7b\"result\": \"" ++ String.mk (jsonEscapeList s.data) ++ "\"\x7d"

def jsonUnescapeChar (e : Char) : Option Char :=
  if e = 'n' then some '\n'
  else if e = 't' then some '\t'
  else if e = 'r' then some '\r'
  else if e = '\\' then some '\\'
  else if e = '"' then some '"'
  else none

/-- Scan a JSON string body up to its closing quote, undoing the escapes
`jsonEscapeChar` emits; returns the decoded content and the characters
after the closing quote. -/
def jsonScanString : List Char → Option (List Char × List Char)
  | [] => none
  | c :: rest =>
    if c = '"' then some ([], rest)
    else if c = '\\' then
      match rest with
      | [] => none
      | e :: rest2 =>
        match jsonUnescapeChar e with
        | none => none
        | some d => (jsonScanString rest2).map (fun p => (d :: p.1, p.2))
    else (jsonScanString rest).map (fun p => (c :: p.1, p.2))

/-- Parse a document of the shape `{"result": "<string>"}` and return the
decoded value of the `result` field. -/
def jsonParseResultField (doc : String) : Option String :=
  if doc.data.take 12 = "\x7b\"result\": \"".data then
    match jsonScanString (doc.data.drop 12) with
    | some (content, rest) => if rest = ['\x7d'] then some (String.mk content) else none
    | none => none
  else none

/-- The `output` field built by `on_execute` in the local Apptainer and
Kubernetes tasks: strip, escape newlines/tabs, wrap as
`json.dumps({"result": safe_result})`. -/
def onExecuteOutputJson (raw : String) : String :=
  jsonDumpsResult (safeResultOf raw)

/-! ## Checkpoint.execute_command (dagon/checkpoint.py)

The child process result as delivered by `Popen.communicate`: captured
stdout, captured stderr, and the process exit status. -/

structure ProcOutcome where
  out : String
  err : String
  returncode : Int
deriving Repr, DecidableEq

structure CmdResult where
  code : Int
  message : String
  output : String
deriving Repr, DecidableEq

/-- `Checkpoint.execute_command`: after `communicate`, the result is
classified by `if len(err): code, message = 1, err`. -/
def checkpointExecuteCommand (p : ProcOutcome) : CmdResult :=
  let cm : Int × String := if p.err.length ≠ 0 then (1, p.err) else (0, "")
  { code := cm.1, message := cm.2, output := p.out }

instance {ε α : Type} [DecidableEq ε] [DecidableEq α] : DecidableEq (Except ε α) := fun a b =>
  match a, b with
  | Except.error x, Except.error y =>
    if h : x = y then .isTrue (congrArg Except.error h)
    else .isFalse (fun hc => h (Except.error.inj hc))
  | Except.ok x, Except.ok y =>
    if h : x = y then .isTrue (congrArg Except.ok h)
    else .isFalse (fun hc => h (Except.ok.inj hc))
  | Except.error _, Except.ok _ => .isFalse (fun hc => Except.noConfusion hc)
  | Except.ok _, Except.error _ => .isFalse (fun hc => Except.noConfusion hc)

/-- Python `s.endswith(suffix)`. -/
def pyEndsWith (s suffix : String) : Bool :=
  suffix.data.isSuffixOf s.data

def listIsInfix (sub : List Char) : List Char → Bool
  | [] => sub.isEmpty
  | c :: rest => sub.isPrefixOf (c :: rest) || listIsInfix sub rest

/-- Python `sub in s` on strings (substring containment). -/
def containsSubstr (sub s : String) : Bool :=
  listIsInfix sub.data s.data

/-- The ASCII apostrophe, written via its code point. -/
def singleQuoteChar : Char := Char.ofNat 39

/-! ## KubernetesTask.stage_in (dagon/kubernetes_task.py)

`stage_in` reads the source bytes with `cat src_path` in the source pod,
applies `content.replace("'", "'\"'\"'")` and writes them into the
destination pod with `cat > dst_path << 'EOF'\n<escaped>\nEOF`.
The heredoc delimiter is quoted, so the shell performs no substitution on
the body: the escaped content itself lands in the file, followed by the
newline that precedes the delimiter line.  (The model assumes no line of
the content equals the delimiter `EOF`, which would terminate the heredoc
early.)  `RemoteKubernetesTask.stage_in` uses the identical heredoc. -/

def heredocEscapeChar (c : Char) : List Char :=
  if c = singleQuoteChar then
    [singleQuoteChar, '"', singleQuoteChar, '"', singleQuoteChar]
  else [c]

def heredocEscapeList : List Char → List Char
  | [] => []
  | c :: l => heredocEscapeChar c ++ heredocEscapeList l

/-- The bytes `KubernetesTask.stage_in` leaves at the destination path when
the source file holds bytes `b`. -/
def k8sStageInWrittenContent (b : String) : String :=
  String.mk (heredocEscapeList b.data) ++ "\n"

/-! ## pre_process_command (both backends)

The reference scan is `re.findall(r'workflow:///([^/\s]+)/([^\s]+)', command)`:
a task-name run without slash or whitespace, a slash, and a greedy
non-whitespace path, matched left to right without overlap. -/

def refNameChar (c : Char) : Bool := !(c = '/') && !(pyIsWhitespace c)

def refPathChar (c : Char) : Bool := !(pyIsWhitespace c)

def workflowUrlHead : List Char := "workflow:///".data

/-- Match `([^/\s]+)/([^\s]+)` at the head of `l`; on success return the
task name, the path and the unconsumed suffix. -/
def parseRef (l : List Char) : Option (String × String × List Char) :=
  match l.takeWhile refNameChar, l.dropWhile refNameChar with
  | [], _ => none
  | name, '/' :: r2 =>
    match r2.takeWhile refPathChar, r2.dropWhile refPathChar with
    | [], _ => none
    | path, r3 => some (String.mk name, String.mk path, r3)
  | _, _ => none

/-- Left-to-right non-overlapping scan; the fuel (initialized to the input
length, which bounds the number of scan steps) only makes the recursion
structural. -/
def findRefsFuel : Nat → List Char → List (String × String)
  | 0, _ => []
  | _ + 1, [] => []
  | fuel + 1, c :: rest =>
    if workflowUrlHead.isPrefixOf (c :: rest) then
      match parseRef ((c :: rest).drop 12) with
      | some (name, path, remaining) => (name, path) :: findRefsFuel fuel remaining
      | none => findRefsFuel fuel rest
    else findRefsFuel fuel rest

def findWorkflowRefs (cmd : String) : List (String × String) :=
  findRefsFuel cmd.data.length cmd.data

def workflowUrlOf (taskName filePath : String) : String :=
  "workflow:///" ++ taskName ++ "/" ++ filePath

/-- `file_path.replace('/', '_')`. -/
def sanitizeSlashes (p : String) : String :=
  String.map (fun c => if c = '/' then '_' else c) p

/-- `local_path = f"/tmp/{task_name}_{file_path.replace('/', '_')}"`,
used by the local Apptainer and local Kubernetes loops. -/
def localRefPath (taskName filePath : String) : String :=
  "/tmp/" ++ taskName ++ "_" ++ sanitizeSlashes filePath

/-- The reference loop of `ApptainerTask.pre_process_command`.  For each
`(task_name, file_path)` from the scan: a task name not present in the
workflow is silently skipped (no `else` branch in the source); for a known
name the `stage_in` call (which also force-creates the source container,
both abstracted into the `stage` oracle) either succeeds — and every
occurrence of the url is rewritten to the local path — or raises, which the
source catches and merely prints, leaving the command unchanged.  Returns
the processed command and the number of staging attempts. -/
def apptainerProcessRefs (tasks : List String)
    (stage : String → String → String → Except String Unit) :
    List (String × String) → String → String × Nat
  | [], cmd => (cmd, 0)
  | (taskName, filePath) :: refs, cmd =>
    if tasks.contains taskName then
      let url := workflowUrlOf taskName filePath
      let lp := localRefPath taskName filePath
      match stage taskName filePath lp with
      | .ok _ =>
        let r := apptainerProcessRefs tasks stage refs (cmd.replace url lp)
        (r.1, r.2 + 1)
      | .error _ =>
        let r := apptainerProcessRefs tasks stage refs cmd
        (r.1, r.2 + 1)
    else
      apptainerProcessRefs tasks stage refs cmd

/-- The reference loop of `KubernetesTask.pre_process_command`: identical
to the Apptainer one except that a failed `stage_in` is re-raised. -/
def k8sProcessRefs (tasks : List String)
    (stage : String → String → String → Except String Unit) :
    List (String × String) → String → Except String String × Nat
  | [], cmd => (.ok cmd, 0)
  | (taskName, filePath) :: refs, cmd =>
    if tasks.contains taskName then
      let url := workflowUrlOf taskName filePath
      let lp := localRefPath taskName filePath
      match stage taskName filePath lp with
      | .ok _ =>
        let r := k8sProcessRefs tasks stage refs (cmd.replace url lp)
        (r.1, r.2 + 1)
      | .error e => (.error e, 1)
    else
      k8sProcessRefs tasks stage refs cmd

/-- The reference loop of `RemoteKubernetesTask.pre_process_command`: like
the local Kubernetes one, but the rewritten path is the file path itself,
and an unknown task name is logged with a warning before being skipped. -/
def remoteK8sProcessRefs (tasks : List String)
    (stage : String → String → String → Except String Unit) :
    List (String × String) → String → Except String String × Nat
  | [], cmd => (.ok cmd, 0)
  | (taskName, filePath) :: refs, cmd =>
    if tasks.contains taskName then
      let url := workflowUrlOf taskName filePath
      let lp := filePath
      match stage taskName filePath lp with
      | .ok _ =>
        let r := remoteK8sProcessRefs tasks stage refs (cmd.replace url lp)
        (r.1, r.2 + 1)
      | .error e => (.error e, 1)
    else
      remoteK8sProcessRefs tasks stage refs cmd

def apptainerPreProcessCommand (tasks : List String)
    (stage : String → String → String → Except String Unit) (cmd : String) : String × Nat :=
  apptainerProcessRefs tasks stage (findWorkflowRefs cmd) cmd

def k8sPreProcessCommand (tasks : List String)
    (stage : String → String → String → Except String Unit) (cmd : String) :
    Except String String × Nat :=
  k8sProcessRefs tasks stage (findWorkflowRefs cmd) cmd

def remoteK8sPreProcessCommand (tasks : List String)
    (stage : String → String → String → Except String Unit) (cmd : String) :
    Except String String × Nat :=
  remoteK8sProcessRefs tasks stage (findWorkflowRefs cmd) cmd

/-! ## Apptainer sandbox provisioning (dagon/apptainer_task.py) -/

/-- Outcome of one `subprocess.run` of an apptainer command with
`check=True`: success, `CalledProcessError`, or `TimeoutExpired`. -/
inductive BuildOutcome where
  | ok
  | processError (msg : String)
  | timeoutExpired
deriving Repr, DecidableEq

structure ApptainerConfig where
  name : String
  image : String
  tmpDir : String
deriving Repr, DecidableEq

structure ApptainerInfo where
  name : String
  containerId : String
  workDir : String
  stagingDir : String
  sifFile : String
  overlayFile : String
deriving Repr, DecidableEq

structure ApptainerState where
  containerId : Option String
  sifFile : Option String
  overlayFile : Option String
  workDir : Option String
  stagingDir : Option String
  info : Option ApptainerInfo
  executed : Bool
  executionResult : Option ExecResult
deriving Repr, DecidableEq

/-- Backend oracle for `ApptainerTask.create_container`. -/
structure ApptainerCreateEnv where
  freshId : String
  sifExists : Bool
  buildPlain : BuildOutcome
  buildSudo : BuildOutcome
  overlayOutcome : BuildOutcome

/-- `ApptainerTask._prepare_sif_image`.  Returns the raised error or the
resulting sif path, the value assigned to `self.sif_file` (assigned
*before* the build attempt in the non-`.sif` branch), and the number of
plain and sudo `apptainer build` invocations.  A `CalledProcessError` of
the first build (e.g. a permission failure) is caught and retried once
with `sudo`; any failure of the retry propagates; a `TimeoutExpired` is
not caught at all. -/
def prepareSifImage (cfg : ApptainerConfig) (workDir : String) (env : ApptainerCreateEnv) :
    Except String String × Option String × Nat × Nat :=
  if pyEndsWith cfg.image ".sif" then
    if env.sifExists then (.ok cfg.image, some cfg.image, 0, 0)
    else (.error ("SIF file not found: " ++ cfg.image), none, 0, 0)
  else
    let sif := workDir ++ "/" ++ cfg.name ++ ".sif"
    match env.buildPlain with
    | .ok => (.ok sif, some sif, 1, 0)
    | .processError _ =>
      match env.buildSudo with
      | .ok => (.ok sif, some sif, 1, 1)
      | .processError m => (.error ("CalledProcessError: " ++ m), some sif, 1, 1)
      | .timeoutExpired => (.error "TimeoutExpired", some sif, 1, 1)
    | .timeoutExpired => (.error "TimeoutExpired", some sif, 1, 0)

/-- Backend oracle for `RemoteApptainerTask._prepare_sif_image`. -/
structure RemoteSifEnv where
  sifExists : Bool
  builtFileExists : Bool

/-- `RemoteApptainerTask._prepare_sif_image`: one build over ssh (the
returned code is ignored), then a `test -f` decides success; there is no
sudo retry.  Returns the error or sif path and the number of sudo build
invocations (always zero). -/
def remotePrepareSifImage (name image tmpDir containerId : String) (env : RemoteSifEnv) :
    Except String String × Nat :=
  if pyEndsWith image ".sif" then
    if env.sifExists then (.ok image, 0)
    else (.error ("Remote SIF file not found: " ++ image), 0)
  else
    let sifDir := tmpDir ++ "/apptainer_sif_" ++ containerId
    let sif := sifDir ++ "/" ++ name ++ ".sif"
    if env.builtFileExists then (.ok sif, 0)
    else (.error "Failed to build SIF image", 0)

/-- `ApptainerTask.create_container`.  The double-checked lock is modeled
as the single-threaded sequence check / re-check / provision (the
interleaving analysis is in `podRaceStep` and `lockedCreateEnter` below).
`container_id`, `work_dir` and `staging_dir` are assigned before the
fallible image/overlay steps; `info` is assigned last; exceptions
propagate without any rollback.  The final component counts backend
invocations (builds and overlay creation). -/
def apptainerCreateContainer (cfg : ApptainerConfig) (env : ApptainerCreateEnv)
    (st : ApptainerState) : Except String Unit × ApptainerState × Nat :=
  match st.containerId with
  | some _ => (.ok (), st, 0)
  | none =>
    let cid := env.freshId
    let wd := cfg.tmpDir ++ "/apptainer_work_" ++ cid
    let stg := wd ++ "/staging"
    let st1 := { st with containerId := some cid, workDir := some wd, stagingDir := some stg }
    match prepareSifImage cfg wd env with
    | (.error e, sifAssigned, p, s) =>
      let st2 := match sifAssigned with
        | some f => { st1 with sifFile := some f }
        | none => st1
      (.error e, st2, p + s)
    | (.ok sif, _, p, s) =>
      let st2 := { st1 with sifFile := some sif }
      let ov := wd ++ "/overlay_" ++ cid ++ ".img"
      let st3 := { st2 with overlayFile := some ov }
      match env.overlayOutcome with
      | .processError e => (.error ("CalledProcessError: " ++ e), st3, p + s + 1)
      | .timeoutExpired => (.error "TimeoutExpired", st3, p + s + 1)
      | .ok =>
        let inf : ApptainerInfo :=
          { name := cfg.name
            containerId := cid
            workDir := wd
            stagingDir := stg
            sifFile := sif
            overlayFile := ov }
        (.ok (), { st3 with info := some inf }, p + s + 1)

/-! ## Kubernetes pod provisioning (dagon/kubernetes_task.py) -/

structure K8sInfo where
  name : String
  ip : String
  podName : String
  nspace : String
deriving Repr, DecidableEq

structure K8sState where
  podName : Option String
  info : Option K8sInfo
  executed : Bool
  executionResult : Option ExecResult
deriving Repr, DecidableEq

inductive PodPhase where
  | pending
  | running (ip : String)
  | failed
deriving Repr, DecidableEq

/-- One `read_namespaced_pod` outcome: a phase, or a raised `ApiException`
(e.g. 404 after a failed creation). -/
inductive PodRead where
  | ok (phase : PodPhase)
  | apiError (msg : String)
deriving Repr, DecidableEq

structure K8sCreateEnv where
  freshName : String
  createOk : Bool
  reads : List PodRead

/-- The `while True` wait loop of `KubernetesTask.create_pod`, driven by
the modeled sequence of read outcomes (exhausting the list models cutting
off the unbounded loop). -/
def k8sWaitLoop (cfgName ns pod : String) :
    List PodRead → K8sState → Except String Unit × K8sState × Nat
  | [], st => (.error "wait loop: no further read outcomes modeled", st, 0)
  | r :: rest, st =>
    match r with
    | .apiError e => (.error e, st, 1)
    | .ok (.running ip) =>
      let inf : K8sInfo := { name := cfgName, ip := ip, podName := pod, nspace := ns }
      (.ok (), { st with info := some inf }, 1)
    | .ok .failed => (.error ("Pod " ++ pod ++ " failed"), st, 1)
    | .ok .pending =>
      let r' := k8sWaitLoop cfgName ns pod rest st
      (r'.1, r'.2.1, r'.2.2 + 1)

/-- `KubernetesTask.create_pod`.  There is NO lock here (the local
Kubernetes task never creates `self._lock`): the method checks `pod_name`,
assigns the fresh name, calls `create_namespaced_pod` — whose exception is
caught and only printed (`env.createOk` is therefore ignored) — and then
polls.  The final component counts backend calls (the create plus the
reads). -/
def k8sCreatePod (cfgName ns : String) (env : K8sCreateEnv) (st : K8sState) :
    Except String Unit × K8sState × Nat :=
  match st.podName with
  | some _ => (.ok (), st, 0)
  | none =>
    let pod := env.freshName
    let st1 := { st with podName := some pod }
    let r := k8sWaitLoop cfgName ns pod env.reads st1
    (r.1, r.2.1, r.2.2 + 1)

/-! ## on_execute (all four backends)

`pre_process_command` is embedded in detail above; inside `on_execute` its
outcome (and the backend operations it performs) is abstracted into a
`PreOutcome`, and the in-container execution into an `ExecOutcome`. -/

inductive ExecOutcome where
  | ok (out : String)
  | err (msg : String)

inductive PreOutcome where
  | ok (processed : String) (ops : Nat)
  | err (msg : String) (ops : Nat)

structure ApptainerExecEnv where
  create : ApptainerCreateEnv
  preOutcome : PreOutcome
  exec : String → ExecOutcome

/-- `ApptainerTask.on_execute`: memo guard on `self.executed`; base
`Task.on_execute` (script bookkeeping, no effect on these fields);
`create_container` when absent; `pre_process_command`; the in-container
execution whose exception is caught and turned into the string
`"Error: <e>"`; strip (success only), escape, JSON-wrap; the result code
is the constant 0; memoize.  Returns the result (as the Python method
returns it), the state, and the number of backend operations issued. -/
def apptainerOnExecute (cfg : ApptainerConfig) (env : ApptainerExecEnv)
    (st : ApptainerState) : Except String (Option ExecResult) × ApptainerState × Nat :=
  if st.executed then (.ok st.executionResult, st, 0)
  else
    let c := match st.containerId with
      | none => apptainerCreateContainer cfg env.create st
      | some _ => (.ok (), st, 0)
    match c with
    | (.error e, st1, n1) => (.error e, st1, n1)
    | (.ok _, st1, n1) =>
      match env.preOutcome with
      | .err e ops => (.error e, st1, n1 + ops)
      | .ok processed ops =>
        let res := match env.exec processed with
          | .ok out => pyStrip out
          | .err e => "Error: " ++ e
        let er : ExecResult := { output := jsonDumpsResult (escapeNlTab res), code := 0 }
        (.ok (some er), { st1 with executed := true, executionResult := some er },
          n1 + ops + 1)

structure K8sExecEnv where
  create : K8sCreateEnv
  preOutcome : PreOutcome
  exec : String → ExecOutcome

/-- `KubernetesTask.on_execute`: like the Apptainer one but the
`exec_in_pod` call is NOT wrapped in try/except — a raised exception
propagates out of `on_execute` and nothing is memoized. -/
def k8sOnExecute (cfgName ns : String) (env : K8sExecEnv) (st : K8sState) :
    Except String (Option ExecResult) × K8sState × Nat :=
  if st.executed then (.ok st.executionResult, st, 0)
  else
    let c := match st.podName with
      | none => k8sCreatePod cfgName ns env.create st
      | some _ => (.ok (), st, 0)
    match c with
    | (.error e, st1, n1) => (.error e, st1, n1)
    | (.ok _, st1, n1) =>
      match env.preOutcome with
      | .err e ops => (.error e, st1, n1 + ops)
      | .ok processed ops =>
        match env.exec processed with
        | .err e => (.error e, st1, n1 + ops + 1)
        | .ok out =>
          let er : ExecResult := { output := onExecuteOutputJson out, code := 0 }
          (.ok (some er), { st1 with executed := true, executionResult := some er },
            n1 + ops + 1)

/-- The dictionary `SSHManager.execute_command` returns (output and code). -/
structure SshOutcome where
  output : String
  code : Int
deriving Repr, DecidableEq

/-- The final adjustment in `RemoteApptainerTask.on_execute`: a non-zero
ssh code is forced to 0 unless the output contains `FATAL` or `Error`. -/
def remoteApptainerAdjust (r : SshOutcome) : SshOutcome :=
  if !(r.code == 0) && !(containsSubstr "FATAL" r.output)
      && !(containsSubstr "Error" r.output) then
    { r with code := 0 }
  else r

structure RemoteApptainerEnv where
  createdId : String
  create : Except String Unit
  sshExec : SshOutcome

/-- The fields of `RemoteApptainerTask` relevant to execution memoization
(the container/staging detail fields are as in `ApptainerState`). -/
structure RemoteApptainerState where
  containerId : Option String
  executed : Bool
  executionResult : Option SshOutcome
deriving Repr, DecidableEq

/-- `RemoteApptainerTask.on_execute`: memo guard; `RemoteTask.on_execute`
(script transfer, one remote op); `create_container` when absent; the
apptainer command and the diagnostic `find` over ssh (two remote ops); the
code adjustment; memoize.  `execute_command` returns a dict rather than
raising, so only a create failure propagates. -/
def remoteApptainerOnExecute (env : RemoteApptainerEnv) (st : RemoteApptainerState) :
    Except String (Option SshOutcome) × RemoteApptainerState × Nat :=
  if st.executed then (.ok st.executionResult, st, 0)
  else
    let c : Except String Unit × RemoteApptainerState × Nat :=
      match st.containerId with
      | none =>
        match env.create with
        | .error e => (.error e, { st with containerId := some env.createdId }, 1)
        | .ok _ => (.ok (), { st with containerId := some env.createdId }, 1)
      | some _ => (.ok (), st, 0)
    match c with
    | (.error e, st1, n1) => (.error e, st1, n1 + 1)
    | (.ok _, st1, n1) =>
      let r := remoteApptainerAdjust env.sshExec
      (.ok (some r), { st1 with executed := true, executionResult := some r }, n1 + 3)

structure RemoteK8sEnv where
  createdName : String
  create : Except String Unit
  preOutcome : PreOutcome
  exec : String → ExecOutcome

structure RemoteK8sState where
  podName : Option String
  executed : Bool
  executionResult : Option ExecResult
deriving Repr, DecidableEq

/-- `RemoteKubernetesTask.on_execute`: memo guard; lock-guarded
`create_pod` when absent (failures raise); `pre_process_command`;
`exec_in_pod` via `_run_kubectl_command`, which raises on a non-zero ssh
code; strip, escape, JSON-wrap with constant code 0; memoize. -/
def remoteK8sOnExecute (env : RemoteK8sEnv) (st : RemoteK8sState) :
    Except String (Option ExecResult) × RemoteK8sState × Nat :=
  if st.executed then (.ok st.executionResult, st, 0)
  else
    let c : Except String Unit × RemoteK8sState × Nat :=
      match st.podName with
      | none =>
        match env.create with
        | .error e => (.error e, { st with podName := some env.createdName }, 1)
        | .ok _ => (.ok (), { st with podName := some env.createdName }, 1)
      | some _ => (.ok (), st, 0)
    match c with
    | (.error e, st1, n1) => (.error e, st1, n1)
    | (.ok _, st1, n1) =>
      match env.preOutcome with
      | .err e ops => (.error e, st1, n1 + ops)
      | .ok processed ops =>
        match env.exec processed with
        | .err e => (.error e, st1, n1 + ops + 1)
        | .ok out =>
          let er : ExecResult := { output := onExecuteOutputJson out, code := 0 }
          (.ok (some er), { st1 with executed := true, executionResult := some er },
            n1 + ops + 1)

/-! ## Concurrency models for sandbox creation

`KubernetesTask.create_pod` (local) acquires no lock — the local
`KubernetesTask.__init__` does not even create `self._lock` — so its
check-then-create is interleavable: step 0 reads `pod_name`, step 1 (taken
only after reading `None`) assigns the fresh name and performs the backend
create.  Two threads are modeled; `createCount` counts backend creates. -/

structure PodRaceState where
  podName : Option Nat
  createCount : Nat
  pc1 : Nat
  pc2 : Nat
deriving Repr, DecidableEq

def podRaceStep (who1 : Bool) (s : PodRaceState) : PodRaceState :=
  if who1 then
    match s.pc1 with
    | 0 => if s.podName.isSome then { s with pc1 := 2 } else { s with pc1 := 1 }
    | 1 => { s with podName := some 1, createCount := s.createCount + 1, pc1 := 2 }
    | _ => s
  else
    match s.pc2 with
    | 0 => if s.podName.isSome then { s with pc2 := 2 } else { s with pc2 := 1 }
    | 1 => { s with podName := some 2, createCount := s.createCount + 1, pc2 := 2 }
    | _ => s

def podRaceRun (sched : List Bool) (s : PodRaceState) : PodRaceState :=
  sched.foldl (fun st w => podRaceStep w st) s

/-- `ApptainerTask.create_container`, `RemoteApptainerTask.create_container`
and `RemoteKubernetesTask.create_pod` re-check the identity field inside
`with self._lock:` before creating.  The lock serializes the critical
sections, so any interleaving of N concurrent callers is a sequence of
critical-section entries; one entry re-checks and creates at most once.
State: (identity field, backend create count). -/
def lockedCreateEnter (s : Option Nat × Nat) : Option Nat × Nat :=
  match s.1 with
  | some _ => s
  | none => (some 1, s.2 + 1)

def lockedCreateRun : Nat → Option Nat × Nat → Option Nat × Nat
  | 0, s => s
  | n + 1, s => lockedCreateRun n (lockedCreateEnter s)

/-! ## Checkpoint.on_garbage (dagon/checkpoint.py)

`workflow.checkpoints` maps `<workflow-name>.<task-name>` to a record
holding a working directory; the association list keeps only the
`working_dir` field the method touches. -/

def lookupCheckpoints : List (String × String) → String → Option String
  | [], _ => none
  | (k, v) :: rest, key => if k = key then some v else lookupCheckpoints rest key

/-- `self.workflow.checkpoints[key]["working_dir"] = wd`: indexing a
missing key raises `KeyError`, modeled as `none`. -/
def setCheckpointWorkingDir : List (String × String) → String → String →
    Option (List (String × String))
  | [], _, _ => none
  | (k, v) :: rest, key, wd =>
    if k = key then some ((k, wd) :: rest)
    else (setCheckpointWorkingDir rest key wd).map (fun m => (k, v) :: m)

structure CheckpointGarbageResult where
  workingDir : String
  checkpoints : List (String × String)
  fileName : String
  fileContent : List (String × String)
deriving Repr, DecidableEq

/-- `Checkpoint.on_garbage` (and `RemoteCheckpoint.on_garbage`, identical
except that the rename is issued over ssh): rename the working directory
by appending `-checkpoint`, update the in-memory checkpoint map at key
`<workflow-name>.<task-name>`, and write the whole map, JSON-serialized,
to a file named `<task-name>.json`. -/
def checkpointOnGarbage (wfName taskName workingDir : String)
    (checkpoints : List (String × String)) : Option CheckpointGarbageResult :=
  let wd := workingDir ++ "-checkpoint"
  (setCheckpointWorkingDir checkpoints (wfName ++ "." ++ taskName) wd).map
    (fun m =>
      { workingDir := wd
        checkpoints := m
        fileName := taskName ++ ".json"
        fileContent := m })

/-! ## Concrete fixtures used by counterexamples and witnesses -/

def cfgDemo : ApptainerConfig :=
  { name := "demo", image := "docker://ubuntu:20.04", tmpDir := "/tmp" }

/-- An Apptainer task state after successful provisioning, before
execution. -/
def apptainerReadyState : ApptainerState :=
  { containerId := some "demo-ab12-1"
    sifFile := some "/tmp/w/demo.sif"
    overlayFile := some "/tmp/w/overlay.img"
    workDir := some "/tmp/w"
    stagingDir := some "/tmp/w/staging"
    info := none
    executed := false
    executionResult := none }

def apptainerCreateEnvOk : ApptainerCreateEnv :=
  { freshId := "demo-ab12-1"
    sifExists := false
    buildPlain := .ok
    buildSudo := .ok
    overlayOutcome := .ok }

def k8sFreshState : K8sState :=
  { podName := none, info := none, executed := false, executionResult := none }

def k8sReadyState : K8sState :=
  { podName := some "demo-ab12-1", info := none, executed := false, executionResult := none }

def sifEnvPermFail : ApptainerCreateEnv :=
  { freshId := "demo-ab12-1"
    sifExists := false
    buildPlain := .processError "permission denied"
    buildSudo := .processError "failed again"
    overlayOutcome := .ok }

def apptainerAbsentState : ApptainerState :=
  { containerId := none
    sifFile := none
    overlayFile := none
    workDir := none
    stagingDir := none
    info := none
    executed := false
    executionResult := none }

def apptainerExecEnvOk : ApptainerExecEnv :=
  { create := apptainerCreateEnvOk
    preOutcome := .ok "echo hi" 0
    exec := fun _ => .ok "hi\n" }

def apptainerExecEnvAlt : ApptainerExecEnv :=
  { create := apptainerCreateEnvOk
    preOutcome := .ok "other" 0
    exec := fun _ => .err "x" }

def apptainerExecEnvErr : ApptainerExecEnv :=
  { create := apptainerCreateEnvOk
    preOutcome := .ok "echo hi" 0
    exec := fun _ => .err "boom" }

def erHi : ExecResult := { output := "\x7b\"result\": \"hi\"\x7d", code := 0 }

def apptainerDoneState : ApptainerState :=
  { apptainerReadyState with executed := true, executionResult := some erHi }

def k8sCreateEnvUnused : K8sCreateEnv :=
  { freshName := "unused", createOk := true, reads := [] }

def k8sExecEnvOk : K8sExecEnv :=
  { create := k8sCreateEnvUnused, preOutcome := .ok "cmd" 0, exec := fun _ => .ok "out" }

def k8sExecEnvAlt : K8sExecEnv :=
  { create := k8sCreateEnvUnused, preOutcome := .ok "cmd" 0, exec := fun _ => .err "x" }

def erOut : ExecResult := { output := "\x7b\"result\": \"out\"\x7d", code := 0 }

def k8sDoneState : K8sState :=
  { k8sReadyState with executed := true, executionResult := some erOut }

def sshDone : SshOutcome := { output := "done", code := 0 }

def remoteApptReady : RemoteApptainerState :=
  { containerId := some "c", executed := false, executionResult := none }

def remoteApptEnvOk : RemoteApptainerEnv :=
  { createdId := "c2", create := .ok (), sshExec := sshDone }

def remoteApptEnvAlt : RemoteApptainerEnv :=
  { createdId := "c3", create := .ok (), sshExec := { output := "other", code := 1 } }

def remoteApptDone : RemoteApptainerState :=
  { containerId := some "c", executed := true, executionResult := some sshDone }

def remoteK8sReady : RemoteK8sState :=
  { podName := some "p", executed := false, executionResult := none }

def remoteK8sEnvOk : RemoteK8sEnv :=
  { createdName := "p2", create := .ok (), preOutcome := .ok "cmd" 0,
    exec := fun _ => .ok "res" }

def remoteK8sEnvAlt : RemoteK8sEnv :=
  { createdName := "p3", create := .ok (), preOutcome := .ok "cmd" 0,
    exec := fun _ => .err "x" }

def erRes : ExecResult := { output := "\x7b\"result\": \"res\"\x7d", code := 0 }

def remoteK8sDone : RemoteK8sState :=
  { podName := some "p", executed := true, executionResult := some erRes }

/-! ### Theorems -/

/-- C10: `Checkpoint.execute_command` classifies failure solely by stderr:
it returns code 1 with the captured stderr as message exactly when the
child wrote at least one byte to stderr, and code 0 with an empty message
otherwise; the child's exit status has no influence on the result. -/
theorem checkpoint_execute_command_classifies_by_stderr (p : ProcOutcome) :
    ((checkpointExecuteCommand p).code = 1 ∧
      (checkpointExecuteCommand p).message = p.err ↔ p.err ≠ "") ∧
    ((checkpointExecuteCommand p).code = 0 ∧
      (checkpointExecuteCommand p).message = "" ↔ p.err = "") ∧
    (checkpointExecuteCommand p).output = p.out ∧
    (∀ rc : Int, checkpointExecuteCommand { p with returncode := rc } =
      checkpointExecuteCommand p) := by
  have hlen : p.err.length ≠ 0 ↔ p.err ≠ "" := by
    constructor
    · intro h he; apply h; rw [he]; rfl
    · intro h hl
      have hd : p.err.data = [] := List.length_eq_zero.mp hl
      exact h (String.ext hd)
  by_cases h : p.err.length ≠ 0
  · refine ⟨?_, ?_, ?_, ?_⟩
    · simp [checkpointExecuteCommand, h, hlen.mp h]
    · constructor
      · intro hc; exact absurd hc.1 (by simp [checkpointExecuteCommand, h])
      · intro he; exact absurd he (hlen.mp h)
    · simp [checkpointExecuteCommand]
    · intro rc; simp [checkpointExecuteCommand]
  · have he : p.err = "" := by
      by_contra hne; exact h (hlen.mpr hne)
    refine ⟨?_, ?_, ?_, ?_⟩
    · constructor
      · intro hc; exact absurd hc.1 (by simp [checkpointExecuteCommand, h])
      · intro hne; exact absurd he hne
    · simp [checkpointExecuteCommand, h, he]
    · simp [checkpointExecuteCommand]
    · intro rc; simp [checkpointExecuteCommand]

/-! ### JSON round trip -/

theorem jsonScanString_quote (rest : List Char) :
    jsonScanString ('"' :: rest) = some ([], rest) := by
  rw [jsonScanString.eq_def]
  dsimp only
  rw [if_pos rfl]

theorem jsonScanString_other (c : Char) (tl : List Char)
    (h1 : ¬ c = '\\') (h2 : ¬ c = '"') :
    jsonScanString (c :: tl) = (jsonScanString tl).map (fun p => (c :: p.1, p.2)) := by
  rw [jsonScanString.eq_def]
  dsimp only
  rw [if_neg h2, if_neg h1]

theorem jsonScanString_esc (e : Char) (tl : List Char) (d : Char)
    (h : jsonUnescapeChar e = some d) :
    jsonScanString ('\\' :: e :: tl) = (jsonScanString tl).map (fun p => (d :: p.1, p.2)) := by
  rw [jsonScanString.eq_def]
  dsimp only
  simp [h]

theorem jsonScanString_escape (l rest : List Char) :
    jsonScanString (jsonEscapeList l ++ '"' :: rest) = some (l, rest) := by
  induction l with
  | nil =>
    simp only [jsonEscapeList, List.nil_append]
    exact jsonScanString_quote rest
  | cons c l ih =>
    by_cases h1 : c = '\\'
    · subst h1
      have he : jsonEscapeChar '\\' = ['\\', '\\'] := by decide
      simp only [jsonEscapeList, he, List.cons_append, List.nil_append]
      rw [jsonScanString_esc _ _ '\\' (by decide), ih]
      rfl
    · by_cases h2 : c = '"'
      · subst h2
        have he : jsonEscapeChar '"' = ['\\', '"'] := by decide
        simp only [jsonEscapeList, he, List.cons_append, List.nil_append]
        rw [jsonScanString_esc _ _ '"' (by decide), ih]
        rfl
      · by_cases h3 : c = '\n'
        · subst h3
          have he : jsonEscapeChar '\n' = ['\\', 'n'] := by decide
          simp only [jsonEscapeList, he, List.cons_append, List.nil_append]
          rw [jsonScanString_esc _ _ '\n' (by decide), ih]
          rfl
        · by_cases h4 : c = '\t'
          · subst h4
            have he : jsonEscapeChar '\t' = ['\\', 't'] := by decide
            simp only [jsonEscapeList, he, List.cons_append, List.nil_append]
            rw [jsonScanString_esc _ _ '\t' (by decide), ih]
            rfl
          · by_cases h5 : c = '\r'
            · subst h5
              have he : jsonEscapeChar '\r' = ['\\', 'r'] := by decide
              simp only [jsonEscapeList, he, List.cons_append, List.nil_append]
              rw [jsonScanString_esc _ _ '\r' (by decide), ih]
              rfl
            · have he : jsonEscapeChar c = [c] := by
                simp [jsonEscapeChar, h1, h2, h3, h4, h5]
              simp only [jsonEscapeList, he, List.cons_append, List.nil_append]
              rw [jsonScanString_other c _ h1 h2, ih]
              rfl

theorem jsonParseResultField_jsonDumpsResult (s : String) :
    jsonParseResultField (jsonDumpsResult s) = some s := by
  have hdata : (jsonDumpsResult s).data
      = "\x7b\"result\": \"".data ++ (jsonEscapeList s.data ++ '"' :: ['\x7d']) := by
    simp [jsonDumpsResult, String.data_append]
  have hlen : ("\x7b\"result\": \"".data).length = 12 := by decide
  unfold jsonParseResultField
  rw [hdata, List.take_left' hlen, List.drop_left' hlen, if_pos rfl, jsonScanString_escape]
  simp

theorem escapeNlTabList_no_raw (l : List Char) :
    '\n' ∉ escapeNlTabList l ∧ '\t' ∉ escapeNlTabList l := by
  induction l with
  | nil => simp [escapeNlTabList]
  | cons c l ih =>
    by_cases h1 : c = '\n'
    · subst h1
      simp [escapeNlTabList, escapeNlTabChar, ih.1, ih.2]
    · by_cases h2 : c = '\t'
      · subst h2
        simp [escapeNlTabList, escapeNlTabChar, ih.1, ih.2]
      · simp [escapeNlTabList, escapeNlTabChar, h1, h2, ih.1, ih.2]
        exact ⟨Ne.symm h1, Ne.symm h2⟩

/-! ### C2 -/

/-- C2: the claim demands that a successful `stage_in(X, P, D)` leave the
destination file byte-identical to the source bytes `B`.
`KubernetesTask.stage_in` (and its remote variant) cannot satisfy this: the
quoted heredoc appends a trailing newline to every file, and the
`'`→`'"'"'` substitution — a no-op inside a quoted heredoc — lands
verbatim in the file.  Evaluated here at the failing inputs `B = "hi"`
(one byte appended) and `B = it's` (quote mangled). -/
theorem kubernetes_stage_in_corrupts_bytes :
    k8sStageInWrittenContent "hi" = "hi\n" ∧
    ("hi\n" : String) ≠ "hi" ∧
    k8sStageInWrittenContent (String.mk ['i', 't', singleQuoteChar, 's'])
      = String.mk (['i', 't', singleQuoteChar, '"', singleQuoteChar, '"',
          singleQuoteChar, 's', '\n']) := by
  decide

/-! ### C5 -/

/-- C5 counterexample: the raw output `"ok\n"` contains a newline, yet the
JSON-parsed `result` field is `"ok"`: `.strip()` runs before the escaping,
so the boundary newline is deleted — no `\n` escape sequence appears in
its place, refuting the claim that escape sequences appear in place of the
raw control characters. -/
theorem escaped_result_field_counterexample :
    '\n' ∈ "ok\n".data ∧
    jsonParseResultField (onExecuteOutputJson "ok\n") = some "ok" ∧
    listIsInfix ['\\', 'n'] "ok".data = false ∧
    listIsInfix ['\\', 't'] "ok".data = false ∧
    '\n' ∉ "ok".data := by
  decide

/-- C5 amended: the JSON-parsed `result` field equals the
whitespace-stripped raw output with each remaining newline/tab replaced by
its two-character escape; no raw newline or tab appears in the wrapped
string (boundary control characters are removed by stripping, not
escaped).  The `jsonSimpleString` hypothesis marks the strings on which
the embedded `json.dumps` model is exact. -/
theorem escaped_result_field_amended (raw : String) (_h : jsonSimpleString raw) :
    jsonParseResultField (onExecuteOutputJson raw) = some (safeResultOf raw) ∧
    '\n' ∉ (safeResultOf raw).data ∧ '\t' ∉ (safeResultOf raw).data := by
  refine ⟨jsonParseResultField_jsonDumpsResult (safeResultOf raw), ?_, ?_⟩
  · exact (escapeNlTabList_no_raw (pyStrip raw).data).1
  · exact (escapeNlTabList_no_raw (pyStrip raw).data).2

theorem escaped_result_field_amended_witness :
    jsonParseResultField (onExecuteOutputJson "a\nb\tc") = some (safeResultOf "a\nb\tc") ∧
    '\n' ∉ (safeResultOf "a\nb\tc").data ∧ '\t' ∉ (safeResultOf "a\nb\tc").data :=
  escaped_result_field_amended "a\nb\tc" (by decide)

/-! ### C7 -/

/-- C7 counterexample: the command references task `ghost`, which is not
among the workflow tasks `A`, `B`; in all three `pre_process_command`
variants the reference is left verbatim, no staging is attempted and no
error is raised — absence is not fatal. -/
theorem unknown_reference_not_fatal_counterexample :
    findWorkflowRefs "cat workflow:///ghost/out.txt" = [("ghost", "out.txt")] ∧
    apptainerPreProcessCommand ["A", "B"] (fun _ _ _ => .error "stage failed")
        "cat workflow:///ghost/out.txt"
      = ("cat workflow:///ghost/out.txt", 0) ∧
    k8sPreProcessCommand ["A", "B"] (fun _ _ _ => .error "stage failed")
        "cat workflow:///ghost/out.txt"
      = (.ok "cat workflow:///ghost/out.txt", 0) ∧
    remoteK8sPreProcessCommand ["A", "B"] (fun _ _ _ => .error "stage failed")
        "cat workflow:///ghost/out.txt"
      = (.ok "cat workflow:///ghost/out.txt", 0) := by
  decide

/-! ### C8 -/

/-- C8 counterexample: the checkpoint record is written to a file named
after the TASK (`<task-name>.json`), not to one workflow-scoped file: two
checkpoint tasks of the same workflow `w` write to the distinct files
`a.json` and `b.json`, neither containing the workflow name. -/
theorem checkpoint_file_task_scoped_counterexample :
    (checkpointOnGarbage "w" "a" "/scratch/a"
        [("w.a", "/scratch/a"), ("w.b", "/scratch/b")]).map (fun r => r.fileName)
      = some "a.json" ∧
    (checkpointOnGarbage "w" "b" "/scratch/b"
        [("w.a", "/scratch/a"), ("w.b", "/scratch/b")]).map (fun r => r.fileName)
      = some "b.json" ∧
    ("a.json" : String) ≠ "b.json" ∧
    containsSubstr "w" "a.json" = false := by
  decide

/-! ### C9 -/

/-- C9 counterexample: `KubernetesTask.create_pod` acquires no lock, so in
the two-thread interleaving check₁, check₂, create₁, create₂ both threads
read `pod_name = None` and the backend create is invoked twice. -/
theorem create_pod_unlocked_double_create_counterexample :
    (podRaceRun [true, false, true, false]
      { podName := none, createCount := 0, pc1 := 0, pc2 := 0 }).createCount = 2 := by
  decide

/-! ### C4 -/

/-- C4 counterexample: pod creation fails (the create error is swallowed,
the first poll raises a 404); afterwards `pod_name` is still assigned —
it was set before the fallible steps — while `info` is unset, and a
second `create_pod` returns immediately ("reusing") without issuing any
backend call, so there is no retry from scratch. -/
theorem provisioning_failure_counterexample :
    k8sCreatePod "t" "default"
      { freshName := "t-ab12-1", createOk := false, reads := [.apiError "404 pod not found"] }
      k8sFreshState
    = (.error "404 pod not found",
       { podName := some "t-ab12-1", info := none, executed := false, executionResult := none },
       2) ∧
    k8sCreatePod "t" "default"
      { freshName := "t-ab12-2", createOk := true, reads := [.ok (.running "10.0.0.5")] }
      { podName := some "t-ab12-1", info := none, executed := false, executionResult := none }
    = (.ok (),
       { podName := some "t-ab12-1", info := none, executed := false, executionResult := none },
       0) := by
  decide

/-! ### C3 -/

/-- C3 counterexample: the in-container execution raises (`boom`), yet
`ApptainerTask.on_execute` catches the exception and returns the structured
result with `code = 0` — the error is only embedded in the output text,
refuting "failure carries a non-zero code". -/
theorem failure_reported_as_code_zero_counterexample :
    (apptainerOnExecute cfgDemo
      { create := apptainerCreateEnvOk
        preOutcome := .ok "echo hi" 0
        exec := fun _ => .err "boom" }
      apptainerReadyState).1
    = .ok (some { output := "\x7b\"result\": \"Error: boom\"\x7d", code := 0 }) := by
  decide

/-! ### C6 -/

/-- C6: when a local (non-`.sif`) image build fails with a permission
error — surfacing as a `CalledProcessError` — the build is retried exactly
once with `sudo` prefixed; the overall outcome is then the sudo build's
outcome, so a failing retry propagates the provisioning error; no
execution path of `_prepare_sif_image` performs more than one sudo build,
and the remote variant performs none. -/
theorem local_build_retries_once_with_sudo
    (cfg : ApptainerConfig) (wd : String) (env env2 : ApptainerCreateEnv) (m : String)
    (nm im td cid : String) (renv : RemoteSifEnv)
    (himg : pyEndsWith cfg.image ".sif" = false)
    (hfail : env.buildPlain = .processError m) :
    (prepareSifImage cfg wd env).2.2.1 = 1 ∧
    (prepareSifImage cfg wd env).2.2.2 = 1 ∧
    (prepareSifImage cfg wd env).1 =
      (match env.buildSudo with
       | .ok => .ok (wd ++ "/" ++ cfg.name ++ ".sif")
       | .processError m2 => .error ("CalledProcessError: " ++ m2)
       | .timeoutExpired => .error "TimeoutExpired") ∧
    (prepareSifImage cfg wd env2).2.2.2 ≤ 1 ∧
    (remotePrepareSifImage nm im td cid renv).2 = 0 := by
  refine ⟨?_, ?_, ?_, ?_, ?_⟩
  · cases hs : env.buildSudo <;> simp [prepareSifImage, himg, hfail, hs]
  · cases hs : env.buildSudo <;> simp [prepareSifImage, himg, hfail, hs]
  · cases hs : env.buildSudo <;> simp [prepareSifImage, himg, hfail, hs]
  · by_cases hi : pyEndsWith cfg.image ".sif"
    · by_cases hx : env2.sifExists <;> simp [prepareSifImage, hi, hx]
    · cases hb : env2.buildPlain <;> cases hs : env2.buildSudo <;>
        simp [prepareSifImage, hi, hb, hs]
  · by_cases hi : pyEndsWith im ".sif"
    · by_cases hx : renv.sifExists <;> simp [remotePrepareSifImage, hi, hx]
    · by_cases hx : renv.builtFileExists <;> simp [remotePrepareSifImage, hi, hx]

theorem local_build_retries_once_with_sudo_witness :
    (prepareSifImage cfgDemo "/tmp/w" sifEnvPermFail).2.2.1 = 1 ∧
    (prepareSifImage cfgDemo "/tmp/w" sifEnvPermFail).2.2.2 = 1 ∧
    (prepareSifImage cfgDemo "/tmp/w" sifEnvPermFail).1
      = .error "CalledProcessError: failed again" := by
  have h := local_build_retries_once_with_sudo cfgDemo "/tmp/w" sifEnvPermFail sifEnvPermFail
    "permission denied" "demo" "docker://ubuntu:20.04" "/tmp" "c-1"
    { sifExists := false, builtFileExists := false } (by decide) rfl
  exact ⟨h.1, h.2.1, h.2.2.1.trans rfl⟩

/-! ### C9 amended -/

/-- C9 amended: the exactly-once guarantee holds for the lock-guarded
creators (`ApptainerTask.create_container`,
`RemoteApptainerTask.create_container`, `RemoteKubernetesTask.create_pod`):
any positive number of serialized critical-section entries starting from
an absent sandbox performs exactly one backend create, and every caller
afterwards observes the created identity.  (The local
`KubernetesTask.create_pod` is not lock-guarded; see the
counterexample.) -/
theorem locked_create_exactly_once (n : Nat) (h : 1 ≤ n) :
    lockedCreateRun n (none, 0) = (some 1, 1) := by
  obtain ⟨m, rfl⟩ : ∃ m, n = m + 1 := ⟨n - 1, (Nat.succ_pred_eq_of_pos h).symm⟩
  have hstable : ∀ k, lockedCreateRun k (some 1, 1) = (some 1, 1) := by
    intro k
    induction k with
    | zero => rfl
    | succ k ih => simpa [lockedCreateRun, lockedCreateEnter] using ih
  simpa [lockedCreateRun, lockedCreateEnter] using hstable m

theorem locked_create_exactly_once_witness :
    lockedCreateRun 3 (none, 0) = (some 1, 1) :=
  locked_create_exactly_once 3 (by decide)

/-! ### C8 amended -/

theorem setCheckpointWorkingDir_lookup_self (cks : List (String × String)) (key wd : String)
    (m : List (String × String)) (h : setCheckpointWorkingDir cks key wd = some m) :
    lookupCheckpoints m key = some wd := by
  induction cks generalizing m with
  | nil => simp [setCheckpointWorkingDir] at h
  | cons kv rest ih =>
    obtain ⟨k, v⟩ := kv
    by_cases hk : k = key
    · subst hk
      simp [setCheckpointWorkingDir] at h
      rw [← h]
      simp [lookupCheckpoints]
    · simp [setCheckpointWorkingDir, hk] at h
      obtain ⟨m0, hm0, hm⟩ := h
      rw [← hm]
      simp [lookupCheckpoints, hk, ih m0 hm0]

theorem setCheckpointWorkingDir_lookup_other (cks : List (String × String))
    (key wd k2 : String) (m : List (String × String))
    (h : setCheckpointWorkingDir cks key wd = some m) (hne : k2 ≠ key) :
    lookupCheckpoints m k2 = lookupCheckpoints cks k2 := by
  induction cks generalizing m with
  | nil => simp [setCheckpointWorkingDir] at h
  | cons kv rest ih =>
    obtain ⟨k, v⟩ := kv
    by_cases hk : k = key
    · subst hk
      simp [setCheckpointWorkingDir] at h
      rw [← h]
      have hkk : ¬ k = k2 := fun hc => hne (hc ▸ rfl)
      simp [lookupCheckpoints, hkk]
    · simp [setCheckpointWorkingDir, hk] at h
      obtain ⟨m0, hm0, hm⟩ := h
      rw [← hm]
      by_cases hkk : k = k2 <;> simp [lookupCheckpoints, hkk, ih m0 hm0]

/-- C8 amended: teardown renames the working directory by appending the
fixed suffix `-checkpoint` and merges the record mapping
`<workflow-name>.<task-name>` to the new directory into the workflow's
in-memory checkpoint map (all other entries preserved); the full merged
map is then written to a file named `<task-name>.json` — a task-scoped
file name, not a workflow-scoped one. -/
theorem checkpoint_on_garbage_amended (wf task wd k2 : String)
    (cks m : List (String × String))
    (h : setCheckpointWorkingDir cks (wf ++ "." ++ task) (wd ++ "-checkpoint") = some m)
    (hk2 : k2 ≠ wf ++ "." ++ task) :
    checkpointOnGarbage wf task wd cks = some
      { workingDir := wd ++ "-checkpoint"
        checkpoints := m
        fileName := task ++ ".json"
        fileContent := m } ∧
    lookupCheckpoints m (wf ++ "." ++ task) = some (wd ++ "-checkpoint") ∧
    lookupCheckpoints m k2 = lookupCheckpoints cks k2 := by
  refine ⟨?_, setCheckpointWorkingDir_lookup_self _ _ _ _ h,
    setCheckpointWorkingDir_lookup_other _ _ _ _ _ h hk2⟩
  simp [checkpointOnGarbage, h]

theorem checkpoint_on_garbage_amended_witness :
    checkpointOnGarbage "w" "a" "/scratch/a"
        [("w.a", "/scratch/a"), ("w.b", "/scratch/b")] = some
      { workingDir := "/scratch/a-checkpoint"
        checkpoints := [("w.a", "/scratch/a-checkpoint"), ("w.b", "/scratch/b")]
        fileName := "a.json"
        fileContent := [("w.a", "/scratch/a-checkpoint"), ("w.b", "/scratch/b")] } ∧
    lookupCheckpoints [("w.a", "/scratch/a-checkpoint"), ("w.b", "/scratch/b")] ("w" ++ "." ++ "a")
      = some ("/scratch/a" ++ "-checkpoint") ∧
    lookupCheckpoints [("w.a", "/scratch/a-checkpoint"), ("w.b", "/scratch/b")] "w.b"
      = lookupCheckpoints [("w.a", "/scratch/a"), ("w.b", "/scratch/b")] "w.b" := by
  have h := checkpoint_on_garbage_amended "w" "a" "/scratch/a" "w.b"
    [("w.a", "/scratch/a"), ("w.b", "/scratch/b")]
    [("w.a", "/scratch/a-checkpoint"), ("w.b", "/scratch/b")] (by decide) (by decide)
  exact ⟨by simpa using h.1, h.2.1, h.2.2⟩

/-! ### C7 amended -/

theorem apptainerProcessRefs_all_unknown (tasks : List String)
    (stage : String → String → String → Except String Unit)
    (refs : List (String × String)) (cmd : String)
    (h : ∀ x ∈ refs, tasks.contains x.1 = false) :
    apptainerProcessRefs tasks stage refs cmd = (cmd, 0) := by
  induction refs generalizing cmd with
  | nil => rfl
  | cons x refs ih =>
    obtain ⟨name, path⟩ := x
    have hx : tasks.contains name = false := h (name, path) (List.mem_cons_self _ _)
    simp only [apptainerProcessRefs, hx, Bool.false_eq_true, if_false]
    exact ih cmd (fun y hy => h y (List.mem_cons_of_mem _ hy))

theorem k8sProcessRefs_all_unknown (tasks : List String)
    (stage : String → String → String → Except String Unit)
    (refs : List (String × String)) (cmd : String)
    (h : ∀ x ∈ refs, tasks.contains x.1 = false) :
    k8sProcessRefs tasks stage refs cmd = (.ok cmd, 0) := by
  induction refs generalizing cmd with
  | nil => rfl
  | cons x refs ih =>
    obtain ⟨name, path⟩ := x
    have hx : tasks.contains name = false := h (name, path) (List.mem_cons_self _ _)
    simp only [k8sProcessRefs, hx, Bool.false_eq_true, if_false]
    exact ih cmd (fun y hy => h y (List.mem_cons_of_mem _ hy))

theorem remoteK8sProcessRefs_all_unknown (tasks : List String)
    (stage : String → String → String → Except String Unit)
    (refs : List (String × String)) (cmd : String)
    (h : ∀ x ∈ refs, tasks.contains x.1 = false) :
    remoteK8sProcessRefs tasks stage refs cmd = (.ok cmd, 0) := by
  induction refs generalizing cmd with
  | nil => rfl
  | cons x refs ih =>
    obtain ⟨name, path⟩ := x
    have hx : tasks.contains name = false := h (name, path) (List.mem_cons_self _ _)
    simp only [remoteK8sProcessRefs, hx, Bool.false_eq_true, if_false]
    exact ih cmd (fun y hy => h y (List.mem_cons_of_mem _ hy))

/-- C7 amended: a symbolic reference whose task name matches no task in
the owning workflow is NOT fatal: all three `pre_process_command`
variants skip it (the remote Kubernetes one after logging a warning),
leave the reference verbatim in the command, attempt no staging, and
let execution proceed with the unresolved reference. -/
theorem unknown_reference_left_verbatim_amended (tasks : List String)
    (stage : String → String → String → Except String Unit) (cmd : String)
    (h : ∀ x ∈ findWorkflowRefs cmd, tasks.contains x.1 = false) :
    apptainerPreProcessCommand tasks stage cmd = (cmd, 0) ∧
    k8sPreProcessCommand tasks stage cmd = (.ok cmd, 0) ∧
    remoteK8sPreProcessCommand tasks stage cmd = (.ok cmd, 0) :=
  ⟨apptainerProcessRefs_all_unknown tasks stage _ cmd h,
   k8sProcessRefs_all_unknown tasks stage _ cmd h,
   remoteK8sProcessRefs_all_unknown tasks stage _ cmd h⟩

theorem unknown_reference_left_verbatim_amended_witness :
    apptainerPreProcessCommand ["A"] (fun _ _ _ => .ok ())
        "cp workflow:///nobody/x.txt y.txt"
      = ("cp workflow:///nobody/x.txt y.txt", 0) ∧
    k8sPreProcessCommand ["A"] (fun _ _ _ => .ok ())
        "cp workflow:///nobody/x.txt y.txt"
      = (.ok "cp workflow:///nobody/x.txt y.txt", 0) ∧
    remoteK8sPreProcessCommand ["A"] (fun _ _ _ => .ok ())
        "cp workflow:///nobody/x.txt y.txt"
      = (.ok "cp workflow:///nobody/x.txt y.txt", 0) :=
  unknown_reference_left_verbatim_amended ["A"] (fun _ _ _ => .ok ())
    "cp workflow:///nobody/x.txt y.txt" (by decide)

/-! ### C4 amended -/

/-- C4 amended: a provisioning failure does NOT leave the task in the
absent state: the generated identity (`pod_name` / `container_id`) is
assigned before the fallible steps and survives the failure, while `info`
stays as it was (unset); a later provisioning call sees the identity and
returns immediately — reusing the phantom sandbox — instead of retrying
from scratch. -/
theorem provisioning_failure_leaves_identity_assigned_amended
    (kn kns : String) (env env2 : K8sCreateEnv) (st : K8sState)
    (emsg : String) (tailReads : List PodRead)
    (cfg : ApptainerConfig) (aenv aenv2 : ApptainerCreateEnv) (ast : ApptainerState)
    (m1 m2 : String)
    (hpod : st.podName = none)
    (hreads : env.reads = PodRead.apiError emsg :: tailReads)
    (haid : ast.containerId = none)
    (himg : pyEndsWith cfg.image ".sif" = false)
    (hb1 : aenv.buildPlain = .processError m1)
    (hb2 : aenv.buildSudo = .processError m2) :
    (k8sCreatePod kn kns env st).1 = .error emsg ∧
    (k8sCreatePod kn kns env st).2.1.podName = some env.freshName ∧
    (k8sCreatePod kn kns env st).2.1.info = st.info ∧
    k8sCreatePod kn kns env2 (k8sCreatePod kn kns env st).2.1
      = (.ok (), (k8sCreatePod kn kns env st).2.1, 0) ∧
    (apptainerCreateContainer cfg aenv ast).1 = .error ("CalledProcessError: " ++ m2) ∧
    (apptainerCreateContainer cfg aenv ast).2.1.containerId = some aenv.freshId ∧
    (apptainerCreateContainer cfg aenv ast).2.1.info = ast.info ∧
    apptainerCreateContainer cfg aenv2 (apptainerCreateContainer cfg aenv ast).2.1
      = (.ok (), (apptainerCreateContainer cfg aenv ast).2.1, 0) := by
  have hk : k8sCreatePod kn kns env st
      = (.error emsg, { st with podName := some env.freshName }, 2) := by
    simp [k8sCreatePod, hpod, hreads, k8sWaitLoop]
  have ha : apptainerCreateContainer cfg aenv ast
      = (.error ("CalledProcessError: " ++ m2),
         { ast with
            containerId := some aenv.freshId
            workDir := some (cfg.tmpDir ++ "/apptainer_work_" ++ aenv.freshId)
            stagingDir := some (cfg.tmpDir ++ "/apptainer_work_" ++ aenv.freshId ++ "/staging")
            sifFile := some (cfg.tmpDir ++ "/apptainer_work_" ++ aenv.freshId ++ "/" ++
              cfg.name ++ ".sif") },
         2) := by
    simp [apptainerCreateContainer, haid, prepareSifImage, himg, hb1, hb2]
  refine ⟨?_, ?_, ?_, ?_, ?_, ?_, ?_, ?_⟩
  · rw [hk]
  · rw [hk]
  · rw [hk]
  · rw [hk]
    simp [k8sCreatePod]
  · rw [ha]
  · rw [ha]
  · rw [ha]
  · rw [ha]
    simp [apptainerCreateContainer]

theorem provisioning_failure_leaves_identity_assigned_amended_witness :
    (k8sCreatePod "t" "ns"
      { freshName := "t-cd34-1", createOk := false, reads := [.apiError "404"] }
      k8sFreshState).1 = .error "404" ∧
    (k8sCreatePod "t" "ns"
      { freshName := "t-cd34-1", createOk := false, reads := [.apiError "404"] }
      k8sFreshState).2.1.podName = some "t-cd34-1" ∧
    (k8sCreatePod "t" "ns"
      { freshName := "t-cd34-1", createOk := false, reads := [.apiError "404"] }
      k8sFreshState).2.1.info = k8sFreshState.info ∧
    k8sCreatePod "t" "ns"
      { freshName := "t-cd34-2", createOk := true, reads := [] }
      (k8sCreatePod "t" "ns"
        { freshName := "t-cd34-1", createOk := false, reads := [.apiError "404"] }
        k8sFreshState).2.1
      = (.ok (),
         (k8sCreatePod "t" "ns"
           { freshName := "t-cd34-1", createOk := false, reads := [.apiError "404"] }
           k8sFreshState).2.1, 0) ∧
    (apptainerCreateContainer cfgDemo sifEnvPermFail apptainerAbsentState).1
      = .error ("CalledProcessError: " ++ "failed again") ∧
    (apptainerCreateContainer cfgDemo sifEnvPermFail apptainerAbsentState).2.1.containerId
      = some sifEnvPermFail.freshId ∧
    (apptainerCreateContainer cfgDemo sifEnvPermFail apptainerAbsentState).2.1.info
      = apptainerAbsentState.info ∧
    apptainerCreateContainer cfgDemo apptainerCreateEnvOk
      (apptainerCreateContainer cfgDemo sifEnvPermFail apptainerAbsentState).2.1
      = (.ok (),
         (apptainerCreateContainer cfgDemo sifEnvPermFail apptainerAbsentState).2.1, 0) :=
  provisioning_failure_leaves_identity_assigned_amended "t" "ns"
    { freshName := "t-cd34-1", createOk := false, reads := [.apiError "404"] }
    { freshName := "t-cd34-2", createOk := true, reads := [] }
    k8sFreshState "404" [] cfgDemo sifEnvPermFail apptainerCreateEnvOk
    apptainerAbsentState "permission denied" "failed again"
    rfl rfl rfl (by decide) rfl rfl

/-! ### C1 -/

theorem apptainerOnExecute_executed (cfg : ApptainerConfig) (env : ApptainerExecEnv)
    (st : ApptainerState) (h : st.executed = true) :
    apptainerOnExecute cfg env st = (.ok st.executionResult, st, 0) := by
  simp [apptainerOnExecute, h]

theorem k8sOnExecute_executed (kn kns : String) (env : K8sExecEnv)
    (st : K8sState) (h : st.executed = true) :
    k8sOnExecute kn kns env st = (.ok st.executionResult, st, 0) := by
  simp [k8sOnExecute, h]

theorem remoteApptainerOnExecute_executed (env : RemoteApptainerEnv)
    (st : RemoteApptainerState) (h : st.executed = true) :
    remoteApptainerOnExecute env st = (.ok st.executionResult, st, 0) := by
  simp [remoteApptainerOnExecute, h]

theorem remoteK8sOnExecute_executed (env : RemoteK8sEnv)
    (st : RemoteK8sState) (h : st.executed = true) :
    remoteK8sOnExecute env st = (.ok st.executionResult, st, 0) := by
  simp [remoteK8sOnExecute, h]

theorem apptainerOnExecute_sets_memo (cfg : ApptainerConfig) (env : ApptainerExecEnv)
    (st st' : ApptainerState) (r : Option ExecResult) (n : Nat)
    (h0 : st.executed = false)
    (h1 : apptainerOnExecute cfg env st = (.ok r, st', n)) :
    st'.executed = true ∧ st'.executionResult = r := by
  simp only [apptainerOnExecute, h0, Bool.false_eq_true, if_false] at h1
  split at h1
  · exact Except.noConfusion (congrArg Prod.fst h1)
  · split at h1
    · exact Except.noConfusion (congrArg Prod.fst h1)
    · have ha := Except.ok.inj (congrArg Prod.fst h1)
      have hb := congrArg (fun t => t.2.1) h1
      dsimp only at hb
      refine ⟨?_, ?_⟩
      · rw [← hb]
      · rw [← hb]
        exact ha

theorem k8sOnExecute_sets_memo (kn kns : String) (env : K8sExecEnv)
    (st st' : K8sState) (r : Option ExecResult) (n : Nat)
    (h0 : st.executed = false)
    (h1 : k8sOnExecute kn kns env st = (.ok r, st', n)) :
    st'.executed = true ∧ st'.executionResult = r := by
  simp only [k8sOnExecute, h0, Bool.false_eq_true, if_false] at h1
  split at h1
  · exact Except.noConfusion (congrArg Prod.fst h1)
  · split at h1
    · exact Except.noConfusion (congrArg Prod.fst h1)
    · split at h1
      · exact Except.noConfusion (congrArg Prod.fst h1)
      · have ha := Except.ok.inj (congrArg Prod.fst h1)
        have hb := congrArg (fun t => t.2.1) h1
        dsimp only at hb
        refine ⟨?_, ?_⟩
        · rw [← hb]
        · rw [← hb]
          exact ha

theorem remoteApptainerOnExecute_sets_memo (env : RemoteApptainerEnv)
    (st st' : RemoteApptainerState) (r : Option SshOutcome) (n : Nat)
    (h0 : st.executed = false)
    (h1 : remoteApptainerOnExecute env st = (.ok r, st', n)) :
    st'.executed = true ∧ st'.executionResult = r := by
  simp only [remoteApptainerOnExecute, h0, Bool.false_eq_true, if_false] at h1
  split at h1
  · exact Except.noConfusion (congrArg Prod.fst h1)
  · have ha := Except.ok.inj (congrArg Prod.fst h1)
    have hb := congrArg (fun t => t.2.1) h1
    dsimp only at hb
    refine ⟨?_, ?_⟩
    · rw [← hb]
    · rw [← hb]
      exact ha

theorem remoteK8sOnExecute_sets_memo (env : RemoteK8sEnv)
    (st st' : RemoteK8sState) (r : Option ExecResult) (n : Nat)
    (h0 : st.executed = false)
    (h1 : remoteK8sOnExecute env st = (.ok r, st', n)) :
    st'.executed = true ∧ st'.executionResult = r := by
  simp only [remoteK8sOnExecute, h0, Bool.false_eq_true, if_false] at h1
  split at h1
  · exact Except.noConfusion (congrArg Prod.fst h1)
  · split at h1
    · exact Except.noConfusion (congrArg Prod.fst h1)
    · split at h1
      · exact Except.noConfusion (congrArg Prod.fst h1)
      · have ha := Except.ok.inj (congrArg Prod.fst h1)
        have hb := congrArg (fun t => t.2.1) h1
        dsimp only at hb
        refine ⟨?_, ?_⟩
        · rw [← hb]
        · rw [← hb]
          exact ha

/-- C1: for every backend task (Apptainer or Kubernetes, local or remote),
after a first `on_execute` call completes with result `r`, any subsequent
`on_execute` call on the same task instance returns the memoized `r`,
leaves the state untouched, and issues zero backend operations. -/
theorem run_once_memoizes_all_backends
    (cfg : ApptainerConfig) (env env2 : ApptainerExecEnv) (st st' : ApptainerState)
    (r : Option ExecResult) (n : Nat)
    (kn kns : String) (kenv kenv2 : K8sExecEnv) (kst kst' : K8sState)
    (kr : Option ExecResult) (km : Nat)
    (aenv aenv2 : RemoteApptainerEnv) (ast ast' : RemoteApptainerState)
    (ar : Option SshOutcome) (an : Nat)
    (renv renv2 : RemoteK8sEnv) (rst rst' : RemoteK8sState)
    (rr : Option ExecResult) (rn : Nat)
    (h0 : st.executed = false) (h1 : apptainerOnExecute cfg env st = (.ok r, st', n))
    (k0 : kst.executed = false) (k1 : k8sOnExecute kn kns kenv kst = (.ok kr, kst', km))
    (a0 : ast.executed = false) (a1 : remoteApptainerOnExecute aenv ast = (.ok ar, ast', an))
    (r0 : rst.executed = false) (r1 : remoteK8sOnExecute renv rst = (.ok rr, rst', rn)) :
    apptainerOnExecute cfg env2 st' = (.ok r, st', 0) ∧
    k8sOnExecute kn kns kenv2 kst' = (.ok kr, kst', 0) ∧
    remoteApptainerOnExecute aenv2 ast' = (.ok ar, ast', 0) ∧
    remoteK8sOnExecute renv2 rst' = (.ok rr, rst', 0) := by
  obtain ⟨he1, hr1⟩ := apptainerOnExecute_sets_memo cfg env st st' r n h0 h1
  obtain ⟨he2, hr2⟩ := k8sOnExecute_sets_memo kn kns kenv kst kst' kr km k0 k1
  obtain ⟨he3, hr3⟩ := remoteApptainerOnExecute_sets_memo aenv ast ast' ar an a0 a1
  obtain ⟨he4, hr4⟩ := remoteK8sOnExecute_sets_memo renv rst rst' rr rn r0 r1
  refine ⟨?_, ?_, ?_, ?_⟩
  · rw [apptainerOnExecute_executed cfg env2 st' he1, hr1]
  · rw [k8sOnExecute_executed kn kns kenv2 kst' he2, hr2]
  · rw [remoteApptainerOnExecute_executed aenv2 ast' he3, hr3]
  · rw [remoteK8sOnExecute_executed renv2 rst' he4, hr4]

theorem run_once_memoizes_all_backends_witness :
    apptainerOnExecute cfgDemo apptainerExecEnvAlt apptainerDoneState
      = (.ok (some erHi), apptainerDoneState, 0) ∧
    k8sOnExecute "demo" "default" k8sExecEnvAlt k8sDoneState
      = (.ok (some erOut), k8sDoneState, 0) ∧
    remoteApptainerOnExecute remoteApptEnvAlt remoteApptDone
      = (.ok (some sshDone), remoteApptDone, 0) ∧
    remoteK8sOnExecute remoteK8sEnvAlt remoteK8sDone
      = (.ok (some erRes), remoteK8sDone, 0) :=
  run_once_memoizes_all_backends cfgDemo apptainerExecEnvOk apptainerExecEnvAlt
    apptainerReadyState apptainerDoneState (some erHi) 1
    "demo" "default" k8sExecEnvOk k8sExecEnvAlt k8sReadyState k8sDoneState (some erOut) 1
    remoteApptEnvOk remoteApptEnvAlt remoteApptReady remoteApptDone (some sshDone) 3
    remoteK8sEnvOk remoteK8sEnvAlt remoteK8sReady remoteK8sDone (some erRes) 1
    rfl (by decide) rfl (by decide) rfl (by decide) rfl (by decide)

/-! ### C3 amended -/

theorem apptainerOnExecute_ok_code_zero (cfg : ApptainerConfig) (env : ApptainerExecEnv)
    (st st' : ApptainerState) (r : ExecResult) (n : Nat)
    (h0 : st.executed = false)
    (h1 : apptainerOnExecute cfg env st = (.ok (some r), st', n)) :
    r.code = 0 := by
  simp only [apptainerOnExecute, h0, Bool.false_eq_true, if_false] at h1
  split at h1
  · exact Except.noConfusion (congrArg Prod.fst h1)
  · split at h1
    · exact Except.noConfusion (congrArg Prod.fst h1)
    · have ha := Option.some.inj (Except.ok.inj (congrArg Prod.fst h1))
      rw [← ha]

theorem k8sOnExecute_ok_code_zero (kn kns : String) (env : K8sExecEnv)
    (st st' : K8sState) (r : ExecResult) (n : Nat)
    (h0 : st.executed = false)
    (h1 : k8sOnExecute kn kns env st = (.ok (some r), st', n)) :
    r.code = 0 := by
  simp only [k8sOnExecute, h0, Bool.false_eq_true, if_false] at h1
  split at h1
  · exact Except.noConfusion (congrArg Prod.fst h1)
  · split at h1
    · exact Except.noConfusion (congrArg Prod.fst h1)
    · split at h1
      · exact Except.noConfusion (congrArg Prod.fst h1)
      · have ha := Option.some.inj (Except.ok.inj (congrArg Prod.fst h1))
        rw [← ha]

theorem apptainerOnExecute_exec_error (cfg : ApptainerConfig) (env : ApptainerExecEnv)
    (st : ApptainerState) (cid p e : String) (ops : Nat)
    (h0 : st.executed = false) (hc : st.containerId = some cid)
    (hp : env.preOutcome = .ok p ops) (he : env.exec p = .err e) :
    (apptainerOnExecute cfg env st).1
      = .ok (some { output := jsonDumpsResult (escapeNlTab ("Error: " ++ e)), code := 0 }) := by
  simp [apptainerOnExecute, h0, hc, hp, he]

/-- C3 amended: the structured result's `code` field is the constant 0 for
the local Apptainer and Kubernetes tasks — success and failure alike.  An
in-container execution failure in the local Apptainer task is caught and
reported inside the `output` field as the string `Error: <message>`, still
with `code = 0` (the local Kubernetes task instead propagates the
exception and returns no structured result).  The remote Apptainer task
forces a non-zero backend code to 0 whenever the output contains neither
`FATAL` nor `Error`. -/
theorem failure_reporting_amended
    (cfg : ApptainerConfig) (env : ApptainerExecEnv) (st st' : ApptainerState)
    (r : ExecResult) (n : Nat)
    (kn kns : String) (kenv : K8sExecEnv) (kst kst' : K8sState) (kr : ExecResult) (km : Nat)
    (cfg3 : ApptainerConfig) (env3 : ApptainerExecEnv) (st3 : ApptainerState)
    (cid p e : String) (ops : Nat) (sr : SshOutcome)
    (h0 : st.executed = false)
    (h1 : apptainerOnExecute cfg env st = (.ok (some r), st', n))
    (k0 : kst.executed = false)
    (k1 : k8sOnExecute kn kns kenv kst = (.ok (some kr), kst', km))
    (h30 : st3.executed = false) (h3c : st3.containerId = some cid)
    (h3p : env3.preOutcome = .ok p ops) (h3e : env3.exec p = .err e)
    (hsc : sr.code ≠ 0)
    (hsf : containsSubstr "FATAL" sr.output = false)
    (hse : containsSubstr "Error" sr.output = false) :
    r.code = 0 ∧ kr.code = 0 ∧
    (apptainerOnExecute cfg3 env3 st3).1
      = .ok (some { output := jsonDumpsResult (escapeNlTab ("Error: " ++ e)), code := 0 }) ∧
    (remoteApptainerAdjust sr).code = 0 := by
  have hbeq : (sr.code == 0) = false := beq_eq_false_iff_ne.mpr hsc
  refine ⟨apptainerOnExecute_ok_code_zero cfg env st st' r n h0 h1,
    k8sOnExecute_ok_code_zero kn kns kenv kst kst' kr km k0 k1,
    apptainerOnExecute_exec_error cfg3 env3 st3 cid p e ops h30 h3c h3p h3e, ?_⟩
  simp [remoteApptainerAdjust, hbeq, hsf, hse]

theorem failure_reporting_amended_witness :
    erHi.code = 0 ∧ erOut.code = 0 ∧
    (apptainerOnExecute cfgDemo apptainerExecEnvErr apptainerReadyState).1
      = .ok (some { output := jsonDumpsResult (escapeNlTab ("Error: " ++ "boom")), code := 0 }) ∧
    (remoteApptainerAdjust { output := "warning only", code := 1 }).code = 0 :=
  failure_reporting_amended cfgDemo apptainerExecEnvOk apptainerReadyState
    apptainerDoneState erHi 1 "demo" "default" k8sExecEnvOk k8sReadyState k8sDoneState
    erOut 1 cfgDemo apptainerExecEnvErr apptainerReadyState "demo-ab12-1" "echo hi" "boom" 0
    { output := "warning only", code := 1 }
    rfl (by decide) rfl (by decide) rfl rfl rfl rfl (by decide) (by decide) (by decide)
